import Mathlib

/-!
Verification of the Kinect contact-import script (`scripts/import-contacts.py`).

The Python source is shallowly embedded: each Python helper becomes a Lean
function of the same name (module-private names keep their leading
underscore).  CSV rows, as produced by `csv.DictReader`, are modelled as
association lists from column names to string values, so that a present
column with an empty value is distinguishable from an absent column, exactly
as in a Python `dict`.  Parsed JSON documents are modelled by the inductive
`Json` type.  File I/O is abstracted away: every parser takes the already
read/parsed content as its argument.
-/

set_option autoImplicit false

namespace ContactImporter

/-! ## String primitives

Python's `str.strip()` and `str.lower()` are re-implemented on character
lists (rather than through `String.trim`/`String.toLower`) so that every
definition in this file evaluates by kernel reduction. -/

/-- Python `s.strip()`: remove leading and trailing whitespace. -/
def pyStrip (s : String) : String :=
  String.mk (((s.data.dropWhile Char.isWhitespace).reverse.dropWhile Char.isWhitespace).reverse)

/-- Python `s.lower()`. -/
def pyLower (s : String) : String :=
  String.mk (s.data.map Char.toLower)

/-! ## Substring containment (Python's `in` operator on strings) -/

/-- Does `pat` occur at the head of `l`? (helper for substring search) -/
def startsAt : List Char → List Char → Bool
  | [], _ => true
  | _ :: _, [] => false
  | p :: ps, c :: cs => p == c && startsAt ps cs

/-- Does `pat` occur anywhere inside `l`? -/
def containsAt (pat : List Char) : List Char → Bool
  | [] => startsAt pat []
  | c :: cs => startsAt pat (c :: cs) || containsAt pat cs

/-- Python `pat in s` for strings: substring containment. -/
def containsSub (s pat : String) : Bool := containsAt pat.data s.data

/-! ## CSV rows as association lists (`csv.DictReader` rows) -/

/-- A CSV row: ordered column-name/value pairs, first binding wins. -/
def Row : Type := List (String × String)

/-- Python `row.get(k, d)`. -/
def rowGetD (row : Row) (k d : String) : String :=
  (List.lookup k row).getD d

/-- Python truthiness of `row.get(k)`: the key is present with a non-empty value. -/
def rowTruthy (row : Row) (k : String) : Bool :=
  match List.lookup k row with
  | some v => !(v == "")
  | none => false

/-- Python `for field in fields: if row.get(field): x = row[field]; break`,
returning the (untrimmed) value of the first truthy field, if any. -/
def findTruthy (row : Row) (fields : List String) : Option String :=
  fields.findSome? (fun f =>
    match List.lookup f row with
    | some v => if v = "" then none else some v
    | none => none)

/-! ## Format detection (`ContactImporter._detect_csv_format`) -/

/-- First test of `_detect_csv_format`: `'given name' in first_line and
'family name' in first_line` (on the lower-cased line). -/
def googleHeader (l : String) : Bool :=
  containsSub l "given name" && containsSub l "family name"

/-- Second test of `_detect_csv_format`: `'first name' in first_line and
'last name' in first_line`. -/
def outlookHeader (l : String) : Bool :=
  containsSub l "first name" && containsSub l "last name"

/-- Third test of `_detect_csv_format`: `'display name' in first_line and
'phone' in first_line`. -/
def androidHeader (l : String) : Bool :=
  containsSub l "display name" && containsSub l "phone"

/-- Embeds `_detect_csv_format`: the classification of the first line of a
`.csv` file (the file read is abstracted into the `first_line` argument;
the source does `f.readline().strip().lower()` and then tests substring
presence in priority order). -/
def _detect_csv_format (first_line : String) : String :=
  let l := pyLower (pyStrip first_line)
  if googleHeader l then "google_csv"
  else if outlookHeader l then "outlook_csv"
  else if androidHeader l then "android_csv"
  else "generic_csv"

/-! ## Delimiter sniffing (inside `ContactImporter._import_csv`) -/

/-- Number of occurrences of character `c` in `s` (Python `s.count(c)`). -/
def countChar (s : String) (c : Char) : Nat := s.data.count c

/-- Embeds the delimiter detection of `_import_csv`:
`delimiter = ',' if sample.count(',') > sample.count(';') else ';'`
where `sample` is the first 1024 characters of the file. -/
def sniffDelimiter (sample : String) : Char :=
  if countChar sample ',' > countChar sample ';' then ',' else ';'

/-! ## Phone normalization (`ContactImporter._normalize_phone`) -/

/-- The character class kept by `re.sub(r'[^\d+]', '', phone)`:
digits and the plus sign. -/
def keepChar (c : Char) : Bool := c.isDigit || c == '+'

/-- Core of `_normalize_phone`, on the character list of a non-empty input:
strip everything but digits and `+`, then possibly prepend a country code. -/
def normalizePhoneList (l : List Char) : List Char :=
  let normalized := l.filter keepChar
  if normalized ≠ [] ∧ normalized.head? ≠ some '+' then
    if normalized.head? = some '1' ∧ normalized.length = 11 then '+' :: normalized
    else if normalized.length = 10 then '+' :: '1' :: normalized
    else normalized
  else normalized

/-- Embeds `_normalize_phone`. -/
def _normalize_phone (phone : String) : String :=
  if phone = "" then "" else String.mk (normalizePhoneList phone.data)

/-! ## Phone type normalization (`ContactImporter._normalize_phone_type`) -/

/-- Embeds `_normalize_phone_type`. -/
def _normalize_phone_type (phone_type : String) : String :=
  let pt := pyLower phone_type
  if containsSub pt "mobile" || containsSub pt "cell" then "mobile"
  else if containsSub pt "work" || containsSub pt "business" then "work"
  else if containsSub pt "home" then "home"
  else "mobile"

/-! ## Date parsing (`ContactImporter._parse_date`)

`_parse_date` calls `datetime.strptime(date_str.strip(), fmt)` for a fixed
list of format strings and returns the first success re-rendered with
`strftime('%Y-%m-%d')`.  CPython's `strptime` compiles each format directive
to an anchored regular expression with ordered alternation and requires the
whole input to be consumed; the directives used here are `%Y` (exactly four
digits), `%m` (`1[0-2]|0[1-9]|[1-9]`), `%d` (`3[01]|[12]\d|0[1-9]|[1-9]`),
`%H` (`2[0-3]|[0-1]\d|\d`), `%M` (`[0-5]\d|\d`), `%S` (`6[0-1]|[0-5]\d|\d`),
`%B` (full month name, case-insensitive) and literal/whitespace characters
(whitespace in the format matches a non-empty whitespace run).  The matcher
below implements exactly these alternatives in regex order, with
backtracking through the rest of the format via `Option.orElse`; month
names are mutually prefix-free, so at most one alternative of `%B` can
match at a given position.  A successful match is then validated by the
`datetime` constructor (year ≥ 1, day within the month, seconds ≤ 59),
whose `ValueError` likewise moves on to the next format. -/

/-- One token of a compiled `strptime` format string. -/
inductive FmtTok where
  | dY : FmtTok
  | dm : FmtTok
  | dd : FmtTok
  | dH : FmtTok
  | dM : FmtTok
  | dS : FmtTok
  | dB : FmtTok
  | lit : Char → FmtTok
  | ws : FmtTok
deriving DecidableEq, Repr

/-- The fields captured while matching one format (with `strptime`'s
defaults for fields the format does not set). -/
structure DateParts where
  year : Nat := 1900
  month : Nat := 1
  day : Nat := 1
  sec : Nat := 0
deriving DecidableEq, Repr

/-- Numeric value of a digit character. -/
def digitVal (c : Char) : Nat := c.toNat - '0'.toNat

/-- The full month names recognized by `%B` (longest first, as CPython
sorts them) with their month numbers. -/
def monthNames : List (String × Nat) :=
  [("september", 9), ("february", 2), ("november", 11), ("december", 12),
   ("january", 1), ("october", 10), ("august", 8), ("march", 3),
   ("april", 4), ("june", 6), ("july", 7), ("may", 5)]

/-- Case-insensitively strip `pat` from the head of `input`, returning the
rest on success. -/
def ciStarts : List Char → List Char → Option (List Char)
  | [], rest => some rest
  | _ :: _, [] => none
  | p :: ps, c :: cs => if p.toLower = c.toLower then ciStarts ps cs else none

/-- Match `%B`: the unique month name occurring at the head of the input. -/
def matchMonth (input : List Char) : Option (Nat × List Char) :=
  monthNames.findSome? (fun nm => (ciStarts nm.1.data input).map (fun rest => (nm.2, rest)))

/-- Match a whole compiled format against the input, requiring the input to
be consumed entirely; alternatives of a directive are tried in regex order,
and a later alternative is tried whenever the rest of the format fails
(backtracking, via `Option.orElse`). -/
def matchToks : List FmtTok → List Char → DateParts → Option DateParts
  | [], input, acc => if input.isEmpty then some acc else none
  | FmtTok.lit c :: rest, input, acc =>
    match input with
    | c' :: is => if c' = c then matchToks rest is acc else none
    | [] => none
  | FmtTok.ws :: rest, input, acc =>
    match input with
    | c' :: _ =>
      if c'.isWhitespace then matchToks rest (input.dropWhile Char.isWhitespace) acc
      else none
    | [] => none
  | FmtTok.dY :: rest, input, acc =>
    match input with
    | a :: b :: c :: d :: is =>
      if a.isDigit ∧ b.isDigit ∧ c.isDigit ∧ d.isDigit then
        matchToks rest is
          { acc with year := ((digitVal a * 10 + digitVal b) * 10 + digitVal c) * 10 + digitVal d }
      else none
    | _ => none
  | FmtTok.dm :: rest, input, acc =>
    (match input with
     | '1' :: c2 :: is =>
       if '0' ≤ c2 ∧ c2 ≤ '2' then matchToks rest is { acc with month := 10 + digitVal c2 }
       else none
     | _ => none) <|>
    (match input with
     | '0' :: c2 :: is =>
       if '1' ≤ c2 ∧ c2 ≤ '9' then matchToks rest is { acc with month := digitVal c2 }
       else none
     | _ => none) <|>
    (match input with
     | c1 :: is =>
       if '1' ≤ c1 ∧ c1 ≤ '9' then matchToks rest is { acc with month := digitVal c1 }
       else none
     | [] => none)
  | FmtTok.dd :: rest, input, acc =>
    (match input with
     | '3' :: c2 :: is =>
       if c2 = '0' ∨ c2 = '1' then matchToks rest is { acc with day := 30 + digitVal c2 }
       else none
     | _ => none) <|>
    (match input with
     | c1 :: c2 :: is =>
       if (c1 = '1' ∨ c1 = '2') ∧ c2.isDigit then
         matchToks rest is { acc with day := digitVal c1 * 10 + digitVal c2 }
       else none
     | _ => none) <|>
    (match input with
     | '0' :: c2 :: is =>
       if '1' ≤ c2 ∧ c2 ≤ '9' then matchToks rest is { acc with day := digitVal c2 }
       else none
     | _ => none) <|>
    (match input with
     | c1 :: is =>
       if '1' ≤ c1 ∧ c1 ≤ '9' then matchToks rest is { acc with day := digitVal c1 }
       else none
     | [] => none)
  | FmtTok.dH :: rest, input, acc =>
    (match input with
     | '2' :: c2 :: is => if '0' ≤ c2 ∧ c2 ≤ '3' then matchToks rest is acc else none
     | _ => none) <|>
    (match input with
     | c1 :: c2 :: is => if (c1 = '0' ∨ c1 = '1') ∧ c2.isDigit then matchToks rest is acc else none
     | _ => none) <|>
    (match input with
     | c1 :: is => if c1.isDigit then matchToks rest is acc else none
     | [] => none)
  | FmtTok.dM :: rest, input, acc =>
    (match input with
     | c1 :: c2 :: is => if '0' ≤ c1 ∧ c1 ≤ '5' ∧ c2.isDigit then matchToks rest is acc else none
     | _ => none) <|>
    (match input with
     | c1 :: is => if c1.isDigit then matchToks rest is acc else none
     | [] => none)
  | FmtTok.dS :: rest, input, acc =>
    (match input with
     | '6' :: c2 :: is =>
       if c2 = '0' ∨ c2 = '1' then matchToks rest is { acc with sec := 60 + digitVal c2 }
       else none
     | _ => none) <|>
    (match input with
     | c1 :: c2 :: is =>
       if '0' ≤ c1 ∧ c1 ≤ '5' ∧ c2.isDigit then
         matchToks rest is { acc with sec := digitVal c1 * 10 + digitVal c2 }
       else none
     | _ => none) <|>
    (match input with
     | c1 :: is =>
       if c1.isDigit then matchToks rest is { acc with sec := digitVal c1 }
       else none
     | [] => none)
  | FmtTok.dB :: rest, input, acc =>
    match matchMonth input with
    | some (mo, remaining) => matchToks rest remaining { acc with month := mo }
    | none => none

/-- The `date_formats` list of `_parse_date`, compiled:
`['%Y-%m-%d', '%m/%d/%Y', '%d/%m/%Y', '%Y/%m/%d', '%B %d, %Y',
'%d %B %Y', '%Y-%m-%d %H:%M:%S']`. -/
def date_formats : List (List FmtTok) :=
  [ [FmtTok.dY, FmtTok.lit '-', FmtTok.dm, FmtTok.lit '-', FmtTok.dd]
  , [FmtTok.dm, FmtTok.lit '/', FmtTok.dd, FmtTok.lit '/', FmtTok.dY]
  , [FmtTok.dd, FmtTok.lit '/', FmtTok.dm, FmtTok.lit '/', FmtTok.dY]
  , [FmtTok.dY, FmtTok.lit '/', FmtTok.dm, FmtTok.lit '/', FmtTok.dd]
  , [FmtTok.dB, FmtTok.ws, FmtTok.dd, FmtTok.lit ',', FmtTok.ws, FmtTok.dY]
  , [FmtTok.dd, FmtTok.ws, FmtTok.dB, FmtTok.ws, FmtTok.dY]
  , [FmtTok.dY, FmtTok.lit '-', FmtTok.dm, FmtTok.lit '-', FmtTok.dd,
     FmtTok.ws, FmtTok.dH, FmtTok.lit ':', FmtTok.dM, FmtTok.lit ':', FmtTok.dS] ]

/-- Gregorian leap year. -/
def isLeap (y : Nat) : Bool := (y % 4 == 0 && y % 100 != 0) || y % 400 == 0

/-- Days in a month (the validation done by the `datetime` constructor). -/
def daysInMonth (y m : Nat) : Nat :=
  if m = 2 then (if isLeap y then 29 else 28)
  else if m = 4 ∨ m = 6 ∨ m = 9 ∨ m = 11 then 30
  else 31

/-- Zero-pad to two digits (`strftime` `%m`/`%d`). -/
def pad2 (n : Nat) : String := if n < 10 then "0" ++ toString n else toString n

/-- Zero-pad to four digits (`strftime` `%Y`). -/
def pad4 (n : Nat) : String :=
  if n < 10 then "000" ++ toString n
  else if n < 100 then "00" ++ toString n
  else if n < 1000 then "0" ++ toString n
  else toString n

/-- `dt.strftime('%Y-%m-%d')`. -/
def formatYmd (p : DateParts) : String :=
  pad4 p.year ++ "-" ++ pad2 p.month ++ "-" ++ pad2 p.day

/-- Embeds `_parse_date`: empty input yields `None`; otherwise the format
patterns are tried in order and the first successful, `datetime`-valid parse
is re-rendered as `YYYY-MM-DD`; if none succeeds the result is `None`. -/
def _parse_date (date_str : String) : Option String :=
  if date_str = "" then none
  else
    date_formats.findSome? (fun fmt =>
      match matchToks fmt (pyStrip date_str).data {} with
      | some p =>
        if 1 ≤ p.year ∧ 1 ≤ p.month ∧ p.month ≤ 12 ∧ 1 ≤ p.day ∧
           p.day ≤ daysInMonth p.year p.month ∧ p.sec ≤ 59 then
          some (formatYmd p)
        else none
      | none => none)

/-! ## The canonical contact record -/

/-- One entry of a contact's `phones` list. -/
structure Phone where
  type : String
  number : String
  primary : Bool
deriving DecidableEq, Repr

/-- The canonical contact record built by every parser. -/
structure Contact where
  name : String
  phones : List Phone
  emails : List String
  birthday : Option String
  category : String
  lastContact : Option String
  notes : String
deriving DecidableEq, Repr

/-! ## Google CSV rows (`ContactImporter._parse_google_csv_row`) -/

/-- Column name `Phone {i} - Value`. -/
def googlePhoneKey (i : Nat) : String := "Phone " ++ toString i ++ " - Value"

/-- Column name `Phone {i} - Type`. -/
def googlePhoneTypeKey (i : Nat) : String := "Phone " ++ toString i ++ " - Type"

/-- Column name `E-mail {i} - Value`. -/
def googleEmailKey (i : Nat) : String := "E-mail " ++ toString i ++ " - Value"

/-- The phones loop of `_parse_google_csv_row`: `for i in range(1, 6)`,
appending one entry per non-empty phone column, the first with
`primary = (len(phones) == 0)`. -/
def googlePhones (row : Row) : List Phone :=
  (List.range' 1 5).foldl (fun phones i =>
    let phone := pyStrip (rowGetD row (googlePhoneKey i) "")
    if phone ≠ "" then
      phones ++ [⟨_normalize_phone_type (rowGetD row (googlePhoneTypeKey i) "Mobile"),
                 _normalize_phone phone, phones.length == 0⟩]
    else phones) []

/-- The emails loop of `_parse_google_csv_row`: `for i in range(1, 4)`. -/
def googleEmails (row : Row) : List String :=
  (List.range' 1 3).foldl (fun emails i =>
    let email := pyStrip (rowGetD row (googleEmailKey i) "")
    if email ≠ "" then emails ++ [email] else emails) []

/-- Embeds `_parse_google_csv_row`. -/
def _parse_google_csv_row (row : Row) : Contact :=
  let name0 := pyStrip (rowGetD row "Given Name" "" ++ " " ++ rowGetD row "Family Name" "")
  let name := if name0 = "" then rowGetD row "Name" "" else name0
  { name := name
  , phones := googlePhones row
  , emails := googleEmails row
  , birthday := _parse_date (rowGetD row "Birthday" "")
  , category := "Friend"
  , lastContact := none
  , notes := rowGetD row "Notes" "" }

/-! ## Outlook CSV rows (`ContactImporter._parse_outlook_csv_row`) -/

/-- The phones loop of `_parse_outlook_csv_row`: three fixed columns in
fixed order, each non-empty value appended, the first with
`primary = (len(phones) == 0)`. -/
def outlookPhones (row : Row) : List Phone :=
  ["Mobile Phone", "Home Phone", "Business Phone"].foldl (fun phones field =>
    let phone := pyStrip (rowGetD row field "")
    if phone ≠ "" then
      phones ++ [⟨_normalize_phone_type field, _normalize_phone phone, phones.length == 0⟩]
    else phones) []

/-- Embeds `_parse_outlook_csv_row`. -/
def _parse_outlook_csv_row (row : Row) : Contact :=
  let name0 := pyStrip (rowGetD row "First Name" "" ++ " " ++ rowGetD row "Last Name" "")
  let name := if name0 = "" then rowGetD row "Display Name" "" else name0
  { name := name
  , phones := outlookPhones row
  , emails := if rowTruthy row "E-mail Address" then [pyStrip (rowGetD row "E-mail Address" "")] else []
  , birthday := _parse_date (rowGetD row "Birthday" "")
  , category := "Friend"
  , lastContact := none
  , notes := rowGetD row "Notes" "" }

/-! ## Android CSV rows (`ContactImporter._parse_android_csv_row`) -/

/-- Embeds `_parse_android_csv_row`. -/
def _parse_android_csv_row (row : Row) : Contact :=
  { name := pyStrip (rowGetD row "Display Name" "")
  , phones := if rowTruthy row "Phone" then
      [⟨"mobile", _normalize_phone (rowGetD row "Phone" ""), true⟩] else []
  , emails := if rowTruthy row "Email" then [pyStrip (rowGetD row "Email" "")] else []
  , birthday := none
  , category := "Friend"
  , lastContact := none
  , notes := "" }

/-! ## Generic CSV rows (`ContactImporter._parse_generic_csv_row`) -/

/-- Embeds `_parse_generic_csv_row`. -/
def _parse_generic_csv_row (row : Row) : Contact :=
  let name0 := match findTruthy row ["Name", "Full Name", "Display Name", "Contact Name"] with
    | some v => pyStrip v
    | none => ""
  let name := if name0 = "" then
      let first := pyStrip (rowGetD row "First Name" (rowGetD row "Given Name" ""))
      let last := pyStrip (rowGetD row "Last Name" (rowGetD row "Family Name" ""))
      pyStrip (first ++ " " ++ last)
    else name0
  let phone := match findTruthy row ["Phone", "Mobile", "Phone Number", "Mobile Phone"] with
    | some v => pyStrip v
    | none => ""
  let email := match findTruthy row ["Email", "E-mail", "Email Address"] with
    | some v => pyStrip v
    | none => ""
  { name := name
  , phones := if phone ≠ "" then [⟨"mobile", _normalize_phone phone, true⟩] else []
  , emails := if email ≠ "" then [email] else []
  , birthday := none
  , category := "Friend"
  , lastContact := none
  , notes := rowGetD row "Notes" (rowGetD row "Note" "") }

/-! ## CSV import loop (`ContactImporter._import_csv`) -/

/-- The per-row dispatch of `_import_csv` on the detected CSV variant. -/
def parseCsvRow (csv_type : String) (row : Row) : Contact :=
  if csv_type = "google_csv" then _parse_google_csv_row row
  else if csv_type = "outlook_csv" then _parse_outlook_csv_row row
  else if csv_type = "android_csv" then _parse_android_csv_row row
  else _parse_generic_csv_row row

/-- Embeds the row loop of `_import_csv` (the file read and `csv.DictReader`
are abstracted into the `rows` argument): each parsed contact is appended to
the output only if its `name` is non-empty
(`if contact and contact.get('name')`). -/
def _import_csv (csv_type : String) (rows : List Row) : List Contact :=
  rows.foldl (fun contacts row =>
    let contact := parseCsvRow csv_type row
    if contact.name ≠ "" then contacts ++ [contact] else contacts) []

/-! ## vCard import (`ContactImporter._import_vcard`) -/

/-- The `N` (structured name) property of a vCard. -/
structure VName where
  given : String
  family : String
deriving DecidableEq, Repr

/-- A `TEL` property of a vCard: optional `TYPE` parameter list and value. -/
structure VTel where
  type_param : Option (List String)
  value : String
deriving DecidableEq, Repr

/-- One vCard component as exposed by the `vobject` library (the external
parsing dependency is abstracted into this record: optional `FN`, optional
`N`, the `tel`/`email` property lists, optional `BDAY`, optional `NOTE`). -/
structure VCardComp where
  fn : Option String
  n : Option VName
  tels : List VTel
  emails : List String
  bday : Option String
  note : Option String
deriving DecidableEq, Repr

/-- The phone-type classification inside the `tel` loop of `_import_vcard`:
defaults to `mobile`, overridden by a `WORK`/`HOME` type parameter. -/
def vcardPhoneType (tel : VTel) : String :=
  match tel.type_param with
  | some types =>
    if "WORK" ∈ types then "work"
    else if "HOME" ∈ types then "home"
    else "mobile"
  | none => "mobile"

/-- The `tel` loop of `_import_vcard`: every `tel` entry is appended, the
first with `primary = (len(phones) == 0)`. -/
def vcardPhones (v : VCardComp) : List Phone :=
  v.tels.foldl (fun phones tel =>
    phones ++ [⟨vcardPhoneType tel, _normalize_phone tel.value, phones.length == 0⟩]) []

/-- The per-component contact construction of `_import_vcard`. -/
def vcardToContact (v : VCardComp) : Contact :=
  { name := match v.fn with
      | some fn => fn
      | none => match v.n with
        | some nm => pyStrip (nm.given ++ " " ++ nm.family)
        | none => ""
  , phones := vcardPhones v
  , emails := v.emails
  , birthday := match v.bday with
      | some b => _parse_date b
      | none => none
  , category := "Friend"
  , lastContact := none
  , notes := (v.note).getD "" }

/-- Embeds the component loop of `_import_vcard` (the file read and
`vobject.readComponents` are abstracted into the `vcards` argument): a
contact is appended only if its `name` is non-empty (`if contact['name']`). -/
def _import_vcard (vcards : List VCardComp) : List Contact :=
  vcards.foldl (fun contacts v =>
    let contact := vcardToContact v
    if contact.name ≠ "" then contacts ++ [contact] else contacts) []

/-! ## JSON documents, JSON import and export -/

/-- A parsed JSON document (`json.load` result). -/
inductive Json where
  | null : Json
  | bool : Bool → Json
  | num : Int → Json
  | str : String → Json
  | arr : List Json → Json
  | obj : List (String × Json) → Json

/-- Field lookup in a JSON object (Python `data['contacts']`; object keys
are unique in parsed JSON, first binding wins). -/
def lookupField (fields : List (String × Json)) (k : String) : Option Json :=
  match fields with
  | [] => none
  | (k', v) :: rest => if k' = k then some v else lookupField rest k

/-- The `name` field of a JSON contact record, when the record is an object. -/
def jsonName (j : Json) : Option Json :=
  match j with
  | Json.obj fields => lookupField fields "name"
  | _ => none

/-- Embeds `_import_json` (the file read and `json.load` are abstracted into
the `data` argument): a dict containing a `contacts` key yields that key's
value, a top-level list yields itself, anything else raises
`ValueError("Invalid JSON format")`. -/
def _import_json (data : Json) : Except String Json :=
  match data with
  | Json.obj fields =>
    match lookupField fields "contacts" with
    | some contacts => Except.ok contacts
    | none => Except.error "Invalid JSON format"
  | Json.arr l => Except.ok (Json.arr l)
  | _ => Except.error "Invalid JSON format"

/-- Embeds `export_kinect_json` (the `json.dump` serialization is abstracted
away: the function returns the JSON document that is written; `imported_at`
stands for `datetime.now().isoformat()`). -/
def export_kinect_json (contacts : List Json) (imported_at : String) : Json :=
  Json.obj [("version", Json.str "1.0"),
            ("imported_at", Json.str imported_at),
            ("contacts", Json.arr contacts)]

/-! ## Predicates used to state the claims -/

/-- The output shape asserted by the phone-normalizer claim: only digit
characters, apart from at most one `+` in the leading position. -/
def leadingPlusOnly (s : String) : Bool :=
  match s.data with
  | '+' :: rest => rest.all Char.isDigit
  | l => l.all Char.isDigit

/-- The primary-flag invariant: if the phone list is non-empty, its first
entry has `primary = true` and every later entry has `primary = false`
(hence exactly one primary entry). -/
def primaryOk (phones : List Phone) : Bool :=
  match phones with
  | [] => true
  | p :: t => p.primary && t.all (fun q => !q.primary)

/-- Generic-CSV name resolution as the claim words it (not as the source
computes it): a first-name part taken from `First Name` or, when that value
is empty, from `Given Name`; a last-name part taken from `Last Name` or,
when that value is empty, from `Family Name`; trimmed and space-joined. -/
def genericNameClaim (row : Row) : String :=
  let first := if rowGetD row "First Name" "" = "" then rowGetD row "Given Name" ""
               else rowGetD row "First Name" ""
  let last := if rowGetD row "Last Name" "" = "" then rowGetD row "Family Name" ""
              else rowGetD row "Last Name" ""
  pyStrip (pyStrip first ++ " " ++ pyStrip last)

/-- What the source actually uses as the raw first-name part in the
generic-CSV fallback: the value of `First Name` whenever that key is
present (even when empty), and only for an absent key the value of
`Given Name` (Python `row.get('First Name', row.get('Given Name', ''))`). -/
def firstNameSource (row : Row) : String :=
  match List.lookup "First Name" row with
  | some v => v
  | none => rowGetD row "Given Name" ""

/-- The raw last-name part of the generic-CSV fallback: `Last Name` when
the key is present, else `Family Name`. -/
def lastNameSource (row : Row) : String :=
  match List.lookup "Last Name" row with
  | some v => v
  | none => rowGetD row "Family Name" ""

/-! ## Helper lemmas -/

/-- Every character of a normalized phone character list is a digit or `+`. -/
theorem normalizePhoneList_all_keep (l : List Char) :
    (normalizePhoneList l).all keepChar = true := by
  have hf : (l.filter keepChar).all keepChar = true := by
    rw [List.all_eq_true]
    intro c hc
    exact (List.mem_filter.mp hc).2
  have hplus : keepChar '+' = true := rfl
  have hone : keepChar '1' = true := rfl
  simp only [normalizePhoneList]
  split
  · split
    · simp [List.all_cons, hplus, hf]
    · split
      · simp [List.all_cons, hplus, hone, hf]
      · exact hf
  · exact hf

/-- A normalized phone character list is unchanged by the stripping step. -/
theorem normalizePhoneList_filter (l : List Char) :
    (normalizePhoneList l).filter keepChar = normalizePhoneList l := by
  apply List.filter_eq_self.mpr
  intro c hc
  have h := normalizePhoneList_all_keep l
  rw [List.all_eq_true] at h
  exact h c hc

/-- `normalizePhoneList` is the identity on any list that the stripping step
leaves unchanged and that is empty, starts with `+`, or fails all the
country-code conditions. -/
theorem normalizePhoneList_fixed (x : List Char)
    (hfix : x.filter keepChar = x)
    (hx : x = [] ∨ x.head? = some '+' ∨
          (x.head? ≠ some '+' ∧ ¬(x.head? = some '1' ∧ x.length = 11) ∧ x.length ≠ 10)) :
    normalizePhoneList x = x := by
  simp only [normalizePhoneList, hfix]
  rcases hx with hx | hx | hx
  · subst hx; simp
  · rw [if_neg]
    intro h
    exact h.2 hx
  · by_cases hnil : x = []
    · rw [if_neg]
      intro h
      exact h.1 hnil
    · rw [if_pos ⟨hnil, hx.1⟩, if_neg hx.2.1, if_neg hx.2.2]

/-- The output of `normalizePhoneList` falls into one of the fixed-point
cases of `normalizePhoneList_fixed`. -/
theorem normalizePhoneList_cases (l : List Char) :
    normalizePhoneList l = [] ∨ (normalizePhoneList l).head? = some '+' ∨
    ((normalizePhoneList l).head? ≠ some '+' ∧
     ¬((normalizePhoneList l).head? = some '1' ∧ (normalizePhoneList l).length = 11) ∧
     (normalizePhoneList l).length ≠ 10) := by
  simp only [normalizePhoneList]
  by_cases h1 : l.filter keepChar ≠ [] ∧ (l.filter keepChar).head? ≠ some '+'
  · rw [if_pos h1]
    by_cases h2 : (l.filter keepChar).head? = some '1' ∧ (l.filter keepChar).length = 11
    · rw [if_pos h2]
      right; left; rfl
    · rw [if_neg h2]
      by_cases h3 : (l.filter keepChar).length = 10
      · rw [if_pos h3]
        right; left; rfl
      · rw [if_neg h3]
        right; right; exact ⟨h1.2, h2, h3⟩
  · rw [if_neg h1]
    by_cases hnil : l.filter keepChar = []
    · left; exact hnil
    · right; left
      rcases not_and_or.mp h1 with h | h
      · exact absurd (not_ne_iff.mp h) hnil
      · exact not_ne_iff.mp h

/-- `normalizePhoneList` is idempotent. -/
theorem normalizePhoneList_idem (l : List Char) :
    normalizePhoneList (normalizePhoneList l) = normalizePhoneList l :=
  normalizePhoneList_fixed _ (normalizePhoneList_filter l) (normalizePhoneList_cases l)

/-- Appending to a phone list with `primary := (length == 0)` preserves the
primary-flag invariant. -/
theorem primaryOk_append (l : List Phone) (t n : String) (h : primaryOk l = true) :
    primaryOk (l ++ [⟨t, n, l.length == 0⟩]) = true := by
  cases l with
  | nil => rfl
  | cons p rest =>
    have hlen : ((p :: rest).length == 0) = false := by simp
    simp only [primaryOk, Bool.and_eq_true, List.all_eq_true] at h
    simp only [List.cons_append, primaryOk, Bool.and_eq_true, List.all_eq_true]
    refine ⟨h.1, ?_⟩
    intro q hq
    rcases List.mem_append.mp hq with hq | hq
    · exact h.2 q hq
    · rw [List.mem_singleton] at hq
      subst hq
      simp [hlen]

/-- Conditional append with `primary := (length == 0)` preserves the
primary-flag invariant. -/
theorem primaryOk_step (c : Prop) [Decidable c] (l : List Phone) (t n : String)
    (h : primaryOk l = true) :
    primaryOk (if c then l ++ [⟨t, n, l.length == 0⟩] else l) = true := by
  split
  · exact primaryOk_append l t n h
  · exact h

/-- A left fold whose step preserves the primary-flag invariant preserves it
from the initial list. -/
theorem primaryOk_foldl {α : Type} (f : List Phone → α → List Phone)
    (hf : ∀ l a, primaryOk l = true → primaryOk (f l a) = true)
    (xs : List α) (l : List Phone) (h : primaryOk l = true) :
    primaryOk (xs.foldl f l) = true := by
  induction xs generalizing l with
  | nil => exact h
  | cons a as ih => exact ih (f l a) (hf l a h)

/-- The Google phone loop satisfies the primary-flag invariant. -/
theorem googlePhones_primaryOk (row : Row) : primaryOk (googlePhones row) = true := by
  unfold googlePhones
  refine primaryOk_foldl _ ?_ _ _ rfl
  intro l i h
  exact primaryOk_step _ l _ _ h

/-- The Outlook phone loop satisfies the primary-flag invariant. -/
theorem outlookPhones_primaryOk (row : Row) : primaryOk (outlookPhones row) = true := by
  unfold outlookPhones
  refine primaryOk_foldl _ ?_ _ _ rfl
  intro l field h
  exact primaryOk_step _ l _ _ h

/-- The vCard `tel` loop satisfies the primary-flag invariant. -/
theorem vcardPhones_primaryOk (v : VCardComp) : primaryOk (vcardPhones v) = true := by
  unfold vcardPhones
  refine primaryOk_foldl _ ?_ _ _ rfl
  intro l tel h
  exact primaryOk_append l _ _ h

/-- Membership in an append-if-name-non-empty fold implies a non-empty name. -/
theorem name_filter_foldl {α : Type} (toContact : α → Contact) (xs : List α)
    (acc : List Contact) (hacc : ∀ x ∈ acc, x.name ≠ "") (c : Contact)
    (hc : c ∈ xs.foldl (fun contacts a =>
      if (toContact a).name ≠ "" then contacts ++ [toContact a] else contacts) acc) :
    c.name ≠ "" := by
  induction xs generalizing acc with
  | nil => exact hacc c hc
  | cons a as ih =>
    simp only [List.foldl_cons] at hc
    refine ih _ (fun x hx => ?_) hc
    by_cases hcond : (toContact a).name ≠ ""
    · rw [if_pos hcond] at hx
      rcases List.mem_append.mp hx with hx | hx
      · exact hacc x hx
      · rw [List.mem_singleton] at hx
        subst hx
        exact hcond
    · rw [if_neg hcond] at hx
      exact hacc x hx

/-! ## The claims -/

/-- C1 fails as stated: the claim quantifies over all six parsers, but the
JSON parser returns the stored records unchanged, so a record whose `name`
is the empty string does enter its output sequence. -/
theorem C1_counterexample :
    _import_json (Json.arr [Json.obj [("name", Json.str "")]]) =
      Except.ok (Json.arr [Json.obj [("name", Json.str "")]]) ∧
    jsonName (Json.obj [("name", Json.str "")]) = some (Json.str "") :=
  ⟨rfl, rfl⟩

/-- C1 amended: for the vCard parser and the four CSV variants, every record
in the output sequence has a non-empty `name`; the JSON parser is excluded
(it passes records through unchanged). -/
theorem C1_amended (csv_type : String) (rows : List Row) (vcards : List VCardComp)
    (c : Contact) :
    (c ∈ _import_csv csv_type rows → c.name ≠ "") ∧
    (c ∈ _import_vcard vcards → c.name ≠ "") := by
  constructor
  · intro hc
    exact name_filter_foldl (parseCsvRow csv_type) rows []
      (fun x hx => absurd hx (List.not_mem_nil x)) c hc
  · intro hc
    exact name_filter_foldl vcardToContact vcards []
      (fun x hx => absurd hx (List.not_mem_nil x)) c hc

/-- C1 witness: a concrete Android CSV row enters the output of
`_import_csv`, so the amended invariant yields its non-empty name. -/
theorem C1_amended_witness :
    (_parse_android_csv_row [("Display Name", "Bob")]).name ≠ "" := by
  have e : _import_csv "android_csv" [[("Display Name", "Bob")]] =
      [_parse_android_csv_row [("Display Name", "Bob")]] := by decide
  have h : _parse_android_csv_row [("Display Name", "Bob")] ∈
      _import_csv "android_csv" [[("Display Name", "Bob")]] := by
    rw [e]
    exact List.mem_singleton_self _
  exact (C1_amended "android_csv" [[("Display Name", "Bob")]] [] _).1 h

/-- C2: exporting any list of contact records (wrapped as
`{version, imported_at, contacts}`) and re-parsing the result with the JSON
parser yields the same record sequence unchanged. -/
theorem C2_round_trip (contacts : List Json) (imported_at : String) :
    _import_json (export_kinect_json contacts imported_at) =
      Except.ok (Json.arr contacts) := rfl

/-- C3 fails as stated: the stripping step keeps every `+`, not only a
leading one, so for the input `"5+5"` the output `"5+5"` contains a `+` in
a non-leading position. -/
theorem C3_counterexample :
    _normalize_phone "5+5" = "5+5" ∧
    leadingPlusOnly (_normalize_phone "5+5") = false :=
  ⟨rfl, rfl⟩

/-- C3 amended: for every input string, the phone normalizer's output
contains only digit characters and `+` characters (every other character is
stripped; a `+` is kept wherever it occurs, not only in leading position). -/
theorem C3_amended (s : String) :
    (_normalize_phone s).data.all (fun c => c.isDigit || c == '+') = true := by
  show (_normalize_phone s).data.all keepChar = true
  unfold _normalize_phone
  split
  · rfl
  · exact normalizePhoneList_all_keep s.data

/-- C4: the phone normalizer is idempotent. -/
theorem C4_phone_idempotent (s : String) :
    _normalize_phone (_normalize_phone s) = _normalize_phone s := by
  unfold _normalize_phone
  by_cases hs : s = ""
  · simp [hs]
  · rw [if_neg hs]
    by_cases hz : String.mk (normalizePhoneList s.data) = ""
    · rw [if_pos hz]
      exact hz.symm
    · rw [if_neg hz]
      show String.mk (normalizePhoneList (normalizePhoneList s.data)) = _
      rw [normalizePhoneList_idem]

/-- C5: for a `.csv` file, detection reads only the first line, lower-cases
it, and classifies it in strict priority order: both Google substrings give
`google_csv`; else both Outlook substrings give `outlook_csv`; else both
Android substrings give `android_csv`; else `generic_csv`. -/
theorem C5_detect_priority (first_line : String) :
    (googleHeader (pyLower (pyStrip first_line)) = true →
      _detect_csv_format first_line = "google_csv") ∧
    (googleHeader (pyLower (pyStrip first_line)) = false →
      outlookHeader (pyLower (pyStrip first_line)) = true →
      _detect_csv_format first_line = "outlook_csv") ∧
    (googleHeader (pyLower (pyStrip first_line)) = false →
      outlookHeader (pyLower (pyStrip first_line)) = false →
      androidHeader (pyLower (pyStrip first_line)) = true →
      _detect_csv_format first_line = "android_csv") ∧
    (googleHeader (pyLower (pyStrip first_line)) = false →
      outlookHeader (pyLower (pyStrip first_line)) = false →
      androidHeader (pyLower (pyStrip first_line)) = false →
      _detect_csv_format first_line = "generic_csv") := by
  refine ⟨fun h1 => ?_, fun h1 h2 => ?_, fun h1 h2 h3 => ?_, fun h1 h2 h3 => ?_⟩
  · simp [_detect_csv_format, h1]
  · simp [_detect_csv_format, h1, h2]
  · simp [_detect_csv_format, h1, h2, h3]
  · simp [_detect_csv_format, h1, h2, h3]

/-- C5 witness: a concrete Google-style header line detects as
`google_csv`. -/
theorem C5_detect_witness :
    _detect_csv_format "Given Name,Family Name,Birthday" = "google_csv" :=
  (C5_detect_priority "Given Name,Family Name,Birthday").1 (by decide)

/-- C6: the date normalizer maps `"2024-03-15"` to itself, maps
`"03/04/2020"` to `"2020-03-04"` (the `MM/DD/YYYY` pattern is tried before
`DD/MM/YYYY`), and returns `none` for `"garbage"` and for empty input. -/
theorem C6_parse_date_examples :
    _parse_date "2024-03-15" = some "2024-03-15" ∧
    _parse_date "03/04/2020" = some "2020-03-04" ∧
    _parse_date "garbage" = none ∧
    _parse_date "" = none :=
  ⟨by decide, by decide, by decide, by decide⟩

/-- C7: the JSON parser returns the record sequence for a top-level list,
returns the value of the `contacts` key for an object containing one, and
fails with `InvalidFormatError` exactly when the parsed input is neither of
these two shapes. -/
theorem C7_json_shapes (data : Json) :
    (∀ l : List Json, data = Json.arr l → _import_json data = Except.ok (Json.arr l)) ∧
    (∀ (fields : List (String × Json)) (v : Json),
      data = Json.obj fields → lookupField fields "contacts" = some v →
      _import_json data = Except.ok v) ∧
    ((∀ l : List Json, data ≠ Json.arr l) →
     (∀ fields : List (String × Json), data = Json.obj fields →
        lookupField fields "contacts" = none) →
     _import_json data = Except.error "Invalid JSON format") := by
  refine ⟨?_, ?_, ?_⟩
  · rintro l rfl
    rfl
  · rintro fields v rfl hv
    simp [_import_json, hv]
  · intro hnl hobj
    cases data with
    | arr l => exact absurd rfl (hnl l)
    | obj fields => simp [_import_json, hobj fields rfl]
    | null => rfl
    | bool b => rfl
    | num i => rfl
    | str s => rfl

/-- C7 witness: the empty top-level list is accepted and returned. -/
theorem C7_json_witness :
    _import_json (Json.arr []) = Except.ok (Json.arr []) :=
  (C7_json_shapes (Json.arr [])).1 [] rfl

/-- C8: every record produced by the vCard component conversion or any of
the four CSV row parsers satisfies the primary-flag invariant: if its phone
list is non-empty, the first phone has `primary = true` and all later
phones have `primary = false`. -/
theorem C8_primary_first (row : Row) (v : VCardComp) :
    primaryOk (_parse_google_csv_row row).phones = true ∧
    primaryOk (_parse_outlook_csv_row row).phones = true ∧
    primaryOk (_parse_android_csv_row row).phones = true ∧
    primaryOk (_parse_generic_csv_row row).phones = true ∧
    primaryOk (vcardToContact v).phones = true := by
  refine ⟨googlePhones_primaryOk row, outlookPhones_primaryOk row, ?_, ?_,
    vcardPhones_primaryOk v⟩
  · show primaryOk (if rowTruthy row "Phone" then
        [⟨"mobile", _normalize_phone (rowGetD row "Phone" ""), true⟩] else []) = true
    split
    · rfl
    · rfl
  · unfold _parse_generic_csv_row
    dsimp only
    split
    · rfl
    · rfl

/-- C9 fails as stated: in the generic-CSV fallback, `Given Name` is
consulted only when the `First Name` key is absent, not when its value is
empty.  A row with a present-but-empty `First Name` and a non-empty
`Given Name` resolves to `"Doe"`, while the claim predicts `"John Doe"`. -/
theorem C9_counterexample :
    (_parse_generic_csv_row
      [("First Name", ""), ("Given Name", "John"), ("Last Name", "Doe")]).name = "Doe" ∧
    genericNameClaim
      [("First Name", ""), ("Given Name", "John"), ("Last Name", "Doe")] = "John Doe" ∧
    ("Doe" : String) ≠ "John Doe" :=
  ⟨by decide, by decide, by decide⟩

/-- C9 amended: when the columns `Name`, `Full Name`, `Display Name` and
`Contact Name` are all absent or empty, the resolved generic-CSV name is the
trimmed space-joined combination of a first-name part taken from
`First Name` whenever that key is present (even with an empty value) and
from `Given Name` only when the key is absent, and a last-name part taken
likewise from `Last Name`, falling back to `Family Name` only on an absent
key. -/
theorem C9_amended (row : Row)
    (h : ∀ f ∈ (["Name", "Full Name", "Display Name", "Contact Name"] : List String),
      List.lookup f row = none ∨ List.lookup f row = some "") :
    (_parse_generic_csv_row row).name =
      pyStrip (pyStrip (firstNameSource row) ++ " " ++ pyStrip (lastNameSource row)) := by
  have h1 := h "Name" (by simp)
  have h2 := h "Full Name" (by simp)
  have h3 := h "Display Name" (by simp)
  have h4 := h "Contact Name" (by simp)
  have hft : findTruthy row ["Name", "Full Name", "Display Name", "Contact Name"] = none := by
    unfold findTruthy
    rcases h1 with h1 | h1 <;> rcases h2 with h2 | h2 <;> rcases h3 with h3 | h3 <;>
      rcases h4 with h4 | h4 <;> simp [h1, h2, h3, h4]
  have hfirst : rowGetD row "First Name" (rowGetD row "Given Name" "") = firstNameSource row := by
    unfold rowGetD firstNameSource
    cases List.lookup "First Name" row <;> rfl
  have hlast : rowGetD row "Last Name" (rowGetD row "Family Name" "") = lastNameSource row := by
    unfold rowGetD lastNameSource
    cases List.lookup "Last Name" row <;> rfl
  simp [_parse_generic_csv_row, hft, hfirst, hlast]

/-- C9 witness: a row carrying only `Given Name` and `Last Name` (so the
four name columns are absent) resolves per the amended rule to
`"John Doe"`. -/
theorem C9_amended_witness :
    (_parse_generic_csv_row [("Given Name", "John"), ("Last Name", "Doe")]).name = "John Doe" := by
  have h := C9_amended [("Given Name", "John"), ("Last Name", "Doe")] (by decide)
  rw [h]
  decide

/-- C10: in delimiter sniffing, comma is chosen exactly when the sample's
comma count strictly exceeds its semicolon count; on a tie (including a
sample with neither character) semicolon is chosen. -/
theorem C10_delimiter (sample : String) :
    (sniffDelimiter sample = ',' ↔ countChar sample ',' > countChar sample ';') ∧
    (countChar sample ',' ≤ countChar sample ';' → sniffDelimiter sample = ';') := by
  unfold sniffDelimiter
  by_cases h : countChar sample ',' > countChar sample ';'
  · rw [if_pos h]
    exact ⟨⟨fun _ => h, fun _ => rfl⟩, fun hle => absurd h (by omega)⟩
  · rw [if_neg h]
    refine ⟨⟨fun hc => absurd hc (by decide), fun hgt => absurd hgt h⟩, fun _ => rfl⟩

/-- C10 witness: the empty sample (a tie at zero) yields semicolon. -/
theorem C10_delimiter_witness : sniffDelimiter "" = ';' :=
  (C10_delimiter "").2 (by decide)

end ContactImporter
